import Mathlib

/-!
Shallow embedding of `src/h3ingest.py` (repository bhbraswell/cronch).

The script processes Sentinel-2 STAC items into H3 hexagon aggregates:
for each item, `process_one_item` loops over the module-level `BAND_GROUPS`
table; per band group it loads a raster cube, asserts that the configured
resolution equals the second coefficient of the cube's GeoTransform string,
flattens the cube to per-pixel samples, bins each sample into an H3 cell,
groups by (cell, band), takes the arithmetic mean of each group, casts it to
int16 (numpy semantics: truncate toward zero, then wrap modulo 2^16), and
writes the records to the file `item.id + ".parquet"`.  `main` fetches a
catalog's items and calls `process_one_item(items[0])` on the first one only.

External collaborators (the STAC catalog, odc raster decoding, geopandas
reprojection, the H3 library) are modelled as parameters: the raster loader
is a function `TileItem → BandGroupConfig → RasterCube`, and the H3 point
indexer `h3.latlng_to_cell` is a function `ℚ → ℚ → ℕ → String`.  Real
numbers are modelled by ℚ; a raster cube carries its already-flattened,
already-reprojected pixel samples, since flattening and reprojection are
performed by the excluded collaborators.
-/

/-- One parsed GeoTransform: the six affine coefficients of
`data.spatial_ref.GeoTransform.split()` (GDAL order: x-origin, x pixel size,
row rotation, y-origin, column rotation, y pixel size, the last normally
negative for north-up rasters). -/
structure GeoTransform where
  c0 : ℚ
  c1 : ℚ
  c2 : ℚ
  c3 : ℚ
  c4 : ℚ
  c5 : ℚ
deriving DecidableEq

/-- A flattened pixel sample: geographic latitude/longitude (after the
`to_crs("epsg:4326")` reprojection), band name, raw value.  Transient, as in
the dataframe pipeline of `process_one_item`. -/
structure PixelSample where
  lat : ℚ
  lon : ℚ
  band : String
  value : ℤ
deriving DecidableEq

/-- The loaded raster for one (tile, band group): its GeoTransform and its
pixel samples.  Decoding and reprojection are external, so the cube carries
the samples directly. -/
structure RasterCube where
  geoTransform : GeoTransform
  samples : List PixelSample
deriving DecidableEq

/-- One entry of the `BAND_GROUPS` table of `h3ingest.py`. -/
structure BandGroupConfig where
  name : String
  resolution : ℚ
  zoom : ℕ
  bands : List String
deriving DecidableEq

/-- A STAC tile item; only the `id` field reaches the logic modelled here
(footprint, bbox and date feed the excluded collaborators and the log line). -/
structure TileItem where
  id : String
deriving DecidableEq

/-- One output row of the aggregated dataframe: H3 cell id, band, int16
value. -/
structure HexCellRecord where
  cellId : String
  band : String
  value : ℤ
deriving DecidableEq

/-- Error taxonomy.  The code itself only ever raises a bare
`AssertionError` (the `assert ... , "Resolution is donked up"` on line 86);
the `resolutionMismatchError` constructor exists to state the spec's §7
taxonomy (`ResolutionMismatchError` carrying the declared and measured
values) so that claims about it can be formalised. -/
inductive IngestError where
  | assertionError (msg : String)
  | resolutionMismatchError (declared : ℚ) (measured : ℚ)
deriving DecidableEq

/-- Decidable equality of `Except` results, so that concrete runs can be
checked by evaluation. -/
instance exceptDecEq {ε α : Type} [DecidableEq ε] [DecidableEq α] :
    DecidableEq (Except ε α) := fun a b =>
  match a, b with
  | Except.ok x, Except.ok y =>
    if h : x = y then isTrue (by rw [h]) else isFalse (by simp [h])
  | Except.error x, Except.error y =>
    if h : x = y then isTrue (by rw [h]) else isFalse (by simp [h])
  | Except.ok _, Except.error _ => isFalse (by simp)
  | Except.error _, Except.ok _ => isFalse (by simp)

/-- The `vis_nir` entry of `BAND_GROUPS`. -/
def vis_nir_config : BandGroupConfig :=
  ⟨"vis_nir", 10, 12, ["B02", "B03", "B04", "B08"]⟩

/-- The `swir_rededge` entry of `BAND_GROUPS`. -/
def swir_config : BandGroupConfig :=
  ⟨"swir_rededge", 20, 11, ["B05", "B06", "B07", "B11", "B12"]⟩

/-- The module-level `BAND_GROUPS` constant (the source writes the second
zoom as the float `11.0`; it is the level 11). -/
def BAND_GROUPS : List BandGroupConfig :=
  [vis_nir_config, swir_config]

/-- Line 86: `assert res == float(data.spatial_ref.GeoTransform.split()[1]),
"Resolution is donked up"`.  Only the second GeoTransform coefficient (the
x pixel size) is compared; failure is a generic assertion error. -/
def validate_resolution (res : ℚ) (gt : GeoTransform) : Except IngestError Unit :=
  if res = gt.c1 then Except.ok ()
  else Except.error (IngestError.assertionError "Resolution is donked up")

/-- Lines 90-95: `num_pixels = area / res**2`, `valid_frac =
num_pixels/num_tile_pixels`, `ratio = num_pixels / len(cells)`.  Returned as
the pair (pixels-per-cell, valid fraction). -/
def coverage_diagnostics (area_m2 resolution_m num_cells num_tile_pixels : ℚ) : ℚ × ℚ :=
  let num_pixels := area_m2 / resolution_m ^ 2
  (num_pixels / num_cells, num_pixels / num_tile_pixels)

/-- Line 112: the grouping key of one sample, `(h3.latlng_to_cell(lat, lon,
hex_level), band)`, with the H3 point indexer abstract. -/
def sample_key (cfp : ℚ → ℚ → ℕ → String) (lvl : ℕ) (s : PixelSample) : String × String :=
  (cfp s.lat s.lon lvl, s.band)

/-- Truncation toward zero of a rational, as the C double-to-integer cast
underlying numpy `astype` does before narrowing: truncated division of the
numerator by the denominator. -/
def rat_trunc (q : ℚ) : ℤ :=
  Int.tdiv q.num q.den

/-- Two's-complement narrowing to 16 bits: reduce modulo 2^16 into
[-2^15, 2^15). -/
def int16_wrap (n : ℤ) : ℤ :=
  (n + 2 ^ 15) % 2 ^ 16 - 2 ^ 15

/-- Line 119 `.astype({"value":"int16"})` applied to a float64 mean: numpy
truncates toward zero and wraps modulo 2^16. -/
def cast_int16 (q : ℚ) : ℤ :=
  int16_wrap (rat_trunc q)

/-- The arithmetic mean of the values of the samples whose key equals `k`
(the reduction applied by `.groupby([hex_col,"band"])["value"].mean()`). -/
def group_mean (cfp : ℚ → ℚ → ℕ → String) (lvl : ℕ)
    (samples : List PixelSample) (k : String × String) : ℚ :=
  let g := samples.filter (fun s => decide (sample_key cfp lvl s = k))
  ((g.map PixelSample.value).sum : ℚ) / (g.length : ℚ)

/-- Lines 110-119: bin every sample into its H3 cell, group by (cell, band),
reduce each group to the mean of its values, cast to int16.  One output row
per distinct key, keys in first-occurrence order (pandas presents groups in
key-sorted order; the row multiset is the same). -/
def aggregate (cfp : ℚ → ℚ → ℕ → String) (lvl : ℕ)
    (samples : List PixelSample) : List HexCellRecord :=
  ((samples.map (sample_key cfp lvl)).dedup).map
    (fun k => ⟨k.1, k.2, cast_int16 (group_mean cfp lvl samples k)⟩)

/-- Line 133: `df.to_parquet(f"{item.id}.parquet")`.  The band group is in
scope at the write but does not appear in the path. -/
def output_path (tileId : String) (bandGroupName : String) : String :=
  tileId ++ ".parquet"

/-- The body of the `for band_group, band_info in BAND_GROUPS.items()` loop
for one band group: load the cube, assert the resolution, aggregate, write.
Result: the records written and the path they were written to, or the
raised error. -/
def process_band_group (load : TileItem → BandGroupConfig → RasterCube)
    (cfp : ℚ → ℚ → ℕ → String) (tile : TileItem) (g : BandGroupConfig) :
    Except IngestError (List HexCellRecord × String) :=
  let cube := load tile g
  match validate_resolution g.resolution cube.geoTransform with
  | Except.error e => Except.error e
  | Except.ok _ => Except.ok (aggregate cfp g.zoom cube.samples,
      output_path tile.id g.name)

/-- The band-group loop of `process_one_item`: groups run in order; an
exception raised in one iteration propagates out of the loop, so the
remaining groups are not run.  Result: the (group name, records, path)
outputs of the completed iterations, and the error that aborted the loop,
if any. -/
def run_band_groups (load : TileItem → BandGroupConfig → RasterCube)
    (cfp : ℚ → ℚ → ℕ → String) (tile : TileItem) :
    List BandGroupConfig →
    List (String × List HexCellRecord × String) × Option IngestError
  | [] => ([], none)
  | g :: gs =>
    match process_band_group load cfp tile g with
    | Except.error e => ([], some e)
    | Except.ok out =>
      let rest := run_band_groups load cfp tile gs
      ((g.name, out) :: rest.1, rest.2)

/-- `process_one_item`: run the band-group loop over the module-level
`BAND_GROUPS` table. -/
def process_one_item (load : TileItem → BandGroupConfig → RasterCube)
    (cfp : ℚ → ℚ → ℕ → String) (tile : TileItem) :
    List (String × List HexCellRecord × String) × Option IngestError :=
  run_band_groups load cfp tile BAND_GROUPS

/-- `main`, lines 149-159: fetch the catalog's items and call
`process_one_item(items[0])` — only the first item; the fan-out over all
items is commented out.  `items[0]` on an empty catalog is an index error,
modelled as `none`. -/
def main_run (load : TileItem → BandGroupConfig → RasterCube)
    (cfp : ℚ → ℚ → ℕ → String) (items : List TileItem) :
    Option (List (String × List HexCellRecord × String) × Option IngestError) :=
  match items with
  | [] => none
  | t :: _ => some (process_one_item load cfp t)

/-- A concrete H3 point indexer for concrete evaluations: every point in the
sample cell printed in the source's docstring. -/
def demo_cfp : ℚ → ℚ → ℕ → String :=
  fun _ _ _ => "8c9e688000001ff"

/-- A concrete loader whose cube matches every band group's configured
resolution (x pixel size equals the nominal resolution, north-up negative y
pixel size). -/
def demo_load : TileItem → BandGroupConfig → RasterCube :=
  fun _ g => ⟨⟨499980, g.resolution, 0, 7600000, 0, -g.resolution⟩, []⟩

/-- A concrete loader whose cube always reports a 20 m x pixel size: the
10 m `vis_nir` group mismatches, the 20 m `swir_rededge` group matches. -/
def demo_load_20 : TileItem → BandGroupConfig → RasterCube :=
  fun _ _ => ⟨⟨499980, 20, 0, 7600000, 0, -20⟩, []⟩

/-- A concrete loader whose cube always reports a 10 m x pixel size: the
`vis_nir` group matches, the `swir_rededge` group mismatches. -/
def demo_load_10 : TileItem → BandGroupConfig → RasterCube :=
  fun _ _ => ⟨⟨499980, 10, 0, 7600000, 0, -10⟩, []⟩

/-- A concrete loader whose cube's x pixel size matches the configured
resolution while the y pixel size is a skewed -37 m. -/
def demo_load_skewed : TileItem → BandGroupConfig → RasterCube :=
  fun _ g => ⟨⟨499980, g.resolution, 0, 7600000, 0, -37⟩, []⟩

/-- Two concrete pixel samples falling in one cell and band. -/
def demo_samples : List PixelSample :=
  [⟨-21, 157, "B02", 2469⟩, ⟨-21, 157, "B02", 2471⟩]

/-- C4: for all positive scalar inputs, the diagnostics computation returns
exactly ((area_m2 / resolution_m^2) / num_cells,
(area_m2 / resolution_m^2) / num_tile_pixels), as a pure function of these
scalars. -/
theorem coverage_diagnostics_formulas (area_m2 resolution_m num_cells num_tile_pixels : ℚ)
    (h1 : 0 < area_m2) (h2 : 0 < resolution_m) (h3 : 0 < num_cells)
    (h4 : 0 < num_tile_pixels) :
    coverage_diagnostics area_m2 resolution_m num_cells num_tile_pixels =
      (area_m2 / resolution_m ^ 2 / num_cells,
       area_m2 / resolution_m ^ 2 / num_tile_pixels) := rfl

/-- Witness for C4: the spec's §8 example scaled to 240000 cells — a
120000000 m² footprint at 10 m resolution over a 1200x1000 grid. -/
theorem coverage_diagnostics_formulas_witness :
    coverage_diagnostics 120000000 10 240000 1200000 =
      (120000000 / 10 ^ 2 / 240000, 120000000 / 10 ^ 2 / 1200000) :=
  coverage_diagnostics_formulas 120000000 10 240000 1200000
    (by norm_num) (by norm_num) (by norm_num) (by norm_num)

/-- C7 counterexample: the two band groups of one tile produce the same
output path, `"T57KUS.parquet"`, so the claim that their paths differ fails
at this input. -/
theorem output_path_collision_example :
    output_path "T57KUS" "vis_nir" = output_path "T57KUS" "swir_rededge" := rfl

/-- C7 amended: the output path is a function of the tile id alone
(`tile id + ".parquet"`); for every tile, all band groups produce one and
the same path, so the outputs of sibling units overwrite one another. -/
theorem output_path_depends_only_on_tile (t g1 g2 : String) :
    output_path t g1 = output_path t g2 ∧ output_path t g1 = t ++ ".parquet" :=
  ⟨rfl, rfl⟩

/-- C8 counterexample: a two-tile catalog under an always-valid loader —
the run yields outcomes for the two units of tile "T1" only; the units of
tile "T2" get no outcome at all, so "exactly one outcome per (tile,
band_group) unit" fails. -/
theorem main_skips_later_tiles_example :
    main_run demo_load demo_cfp [⟨"T1"⟩, ⟨"T2"⟩] =
      some ([("vis_nir", ([], "T1.parquet")), ("swir_rededge", ([], "T1.parquet"))],
        none) := by decide

/-- C8 amended: the orchestrator processes only the first catalog item: the
result is `process_one_item` on the head, independent of every later tile,
and an empty catalog is an index error (modelled `none`). -/
theorem main_processes_first_tile_only (load : TileItem → BandGroupConfig → RasterCube)
    (cfp : ℚ → ℚ → ℕ → String) (t : TileItem) (ts ts' : List TileItem) :
    main_run load cfp (t :: ts) = main_run load cfp (t :: ts')
    ∧ main_run load cfp (t :: ts) = some (process_one_item load cfp t)
    ∧ main_run load cfp [] = none :=
  ⟨rfl, rfl, rfl⟩

/-- C2 counterexample: a cube measuring 20 m against a declared 10 m fails,
but with a generic assertion error ("Resolution is donked up"), not with a
`ResolutionMismatchError` naming the declared and measured values. -/
theorem resolution_error_kind_example :
    validate_resolution 10 ⟨499980, 20, 0, 7600000, 0, -20⟩ =
      Except.error (IngestError.assertionError "Resolution is donked up")
    ∧ validate_resolution 10 ⟨499980, 20, 0, 7600000, 0, -20⟩ ≠
      Except.error (IngestError.resolutionMismatchError 10 20) := by decide

/-- C2 amended: whenever the measured x pixel size differs from the
configured nominal resolution by any nonzero amount, the unit fails — with
the generic assertion error naming neither value — and does not proceed to
binning, aggregation or writing. -/
theorem resolution_mismatch_fails_generic (load : TileItem → BandGroupConfig → RasterCube)
    (cfp : ℚ → ℚ → ℕ → String) (tile : TileItem) (g : BandGroupConfig)
    (h : g.resolution ≠ (load tile g).geoTransform.c1) :
    process_band_group load cfp tile g =
      Except.error (IngestError.assertionError "Resolution is donked up") := by
  simp [process_band_group, validate_resolution, h]

/-- Witness for C2: the 10 m `vis_nir` group against a 20 m cube. -/
theorem resolution_mismatch_fails_generic_witness :
    process_band_group demo_load_20 demo_cfp ⟨"T1"⟩ vis_nir_config =
      Except.error (IngestError.assertionError "Resolution is donked up") :=
  resolution_mismatch_fails_generic demo_load_20 demo_cfp ⟨"T1"⟩ vis_nir_config
    (by decide)

/-- C9: validation compares the nominal resolution only against the second
GeoTransform coefficient (the x pixel size); when that matches, a deviant y
pixel size (fifth coefficient not equal to the negated resolution of a
north-up raster) is not detected and the unit proceeds to aggregation and
writing. -/
theorem validation_checks_x_only (load : TileItem → BandGroupConfig → RasterCube)
    (cfp : ℚ → ℚ → ℕ → String) (tile : TileItem) (g : BandGroupConfig)
    (hx : g.resolution = (load tile g).geoTransform.c1)
    (hy : (load tile g).geoTransform.c5 ≠ -g.resolution) :
    process_band_group load cfp tile g =
      Except.ok (aggregate cfp g.zoom (load tile g).samples,
        output_path tile.id g.name) := by
  simp [process_band_group, validate_resolution, hx]

/-- Witness for C9: a cube with matching 10 m x pixel size and a skewed
-37 m y pixel size passes validation and produces output. -/
theorem validation_checks_x_only_witness :
    process_band_group demo_load_skewed demo_cfp ⟨"T1"⟩ vis_nir_config =
      Except.ok ([], "T1.parquet") := by
  have h := validation_checks_x_only demo_load_skewed demo_cfp ⟨"T1"⟩ vis_nir_config
    (by decide) (by decide)
  simpa using h

/-- C1 counterexample: under a loader reporting a 20 m cube for every
group, the first band group (`vis_nir`, 10 m) fails its resolution check
and the loop aborts: the run yields no outputs at all, even though the
second band group (`swir_rededge`, 20 m) would have succeeded on its own —
so the failure did prevent the sibling band group from being processed. -/
theorem first_group_failure_halts_siblings_example :
    process_one_item demo_load_20 demo_cfp ⟨"T1"⟩ =
      ([], some (IngestError.assertionError "Resolution is donked up"))
    ∧ process_band_group demo_load_20 demo_cfp ⟨"T1"⟩ swir_config =
      Except.ok ([], "T1.parquet") := by decide

/-- C1 amended: failures are not isolated per (tile, band_group) unit: an
error raised in one band group aborts the whole per-tile loop, so only the
band groups strictly before the failing one complete, and every band group
after it goes unprocessed. -/
theorem failure_aborts_remaining_band_groups
    (load : TileItem → BandGroupConfig → RasterCube) (cfp : ℚ → ℚ → ℕ → String)
    (tile : TileItem) (gs1 : List BandGroupConfig) (g : BandGroupConfig)
    (gs2 : List BandGroupConfig) (f : BandGroupConfig → List HexCellRecord × String)
    (e : IngestError)
    (hok : ∀ x ∈ gs1, process_band_group load cfp tile x = Except.ok (f x))
    (he : process_band_group load cfp tile g = Except.error e) :
    run_band_groups load cfp tile (gs1 ++ g :: gs2) =
      (gs1.map (fun x => (x.name, f x)), some e) := by
  induction gs1 with
  | nil => simp [run_band_groups, he]
  | cons a as ih =>
    have ha : process_band_group load cfp tile a = Except.ok (f a) :=
      hok a (List.mem_cons_self a as)
    have ih2 := ih (fun x hx => hok x (List.mem_cons_of_mem a hx))
    simp [run_band_groups, ha, ih2]

/-- Witness for C1: under a loader reporting 10 m cubes, `vis_nir`
completes and `swir_rededge` fails; the loop's result is the single
`vis_nir` outcome followed by the aborting error. -/
theorem failure_aborts_remaining_band_groups_witness :
    run_band_groups demo_load_10 demo_cfp ⟨"T1"⟩ ([vis_nir_config] ++ swir_config :: []) =
      ([("vis_nir", ([], "T1.parquet"))], some (IngestError.assertionError "Resolution is donked up")) := by
  have h := failure_aborts_remaining_band_groups demo_load_10 demo_cfp ⟨"T1"⟩
    [vis_nir_config] swir_config [] (fun _ => ([], "T1.parquet"))
    (IngestError.assertionError "Resolution is donked up")
    (by decide) (by decide)
  simpa using h

/-- Helper: in a duplicate-free list, the number of elements equal to `a` is
one when `a` occurs and zero otherwise. -/
theorem countP_eq_ite_of_nodup {α : Type} [DecidableEq α] {l : List α}
    (hl : l.Nodup) (a : α) :
    l.countP (fun x => decide (x = a)) = if a ∈ l then 1 else 0 := by
  induction l with
  | nil => simp
  | cons x xs ih =>
    rcases List.nodup_cons.mp hl with ⟨hx, hxs⟩
    by_cases hxa : x = a
    · subst hxa
      have h0 : xs.countP (fun y => decide (y = x)) = 0 :=
        List.countP_eq_zero.mpr (fun y hy => by
          simp only [decide_eq_true_eq]
          rintro rfl
          exact hx hy)
      simp [List.countP_cons, h0]
    · have : a ∈ x :: xs ↔ a ∈ xs := by simp [List.mem_cons, Ne.symm hxa, eq_comm, hxa]
      simp [List.countP_cons, hxa, ih hxs, this]

/-- Helper: on nonnegative rationals, truncated division of numerator by
denominator is the floor. -/
theorem rat_trunc_of_nonneg {q : ℚ} (h : 0 ≤ q) : rat_trunc q = ⌊q⌋ := by
  unfold rat_trunc
  rw [Int.tdiv_eq_ediv (Rat.num_nonneg.mpr h) (Int.ofNat_nonneg q.den)]
  rw [← Rat.floor_intCast_div_natCast q.num q.den, Rat.num_div_den]

/-- Helper: `rat_trunc` rounds toward zero — floor on nonnegative inputs,
ceiling on negative ones. -/
theorem rat_trunc_toward_zero (q : ℚ) :
    rat_trunc q = if 0 ≤ q then ⌊q⌋ else ⌈q⌉ := by
  by_cases h : 0 ≤ q
  · rw [if_pos h, rat_trunc_of_nonneg h]
  · rw [if_neg h]
    push_neg at h
    have h2 : 0 ≤ -q := by linarith
    have e1 : rat_trunc q = -(rat_trunc (-q)) := by
      unfold rat_trunc
      rw [Rat.neg_num, Rat.neg_den, Int.neg_tdiv, neg_neg]
    rw [e1, rat_trunc_of_nonneg h2, Int.floor_neg, neg_neg]

/-- Helper: the int16 cast of an integral rational is the two's-complement
wrap of that integer. -/
theorem cast_int16_intCast (n : ℤ) : cast_int16 (n : ℚ) = int16_wrap n := by
  unfold cast_int16 rat_trunc
  rw [Rat.num_intCast, Rat.den_intCast]
  simp

/-- Helper: aggregating one sample yields one record carrying the cast of
that sample's value (a one-element group's mean is its value). -/
theorem aggregate_singleton (cfp : ℚ → ℚ → ℕ → String) (lvl : ℕ) (s : PixelSample) :
    aggregate cfp lvl [s] =
      [⟨cfp s.lat s.lon lvl, s.band, cast_int16 ((s.value : ℚ))⟩] := by
  simp [aggregate, sample_key, group_mean]

/-- C5: each sample is binned to `cell_for_point(lat, lon, level)`, samples
are partitioned by exact (cell_id, band) equality, each group is reduced to
the arithmetic mean of its values cast to int16, and the output holds
exactly one record per nonempty (cell_id, band) group: the count of records
keyed (c, b) is one when some sample has that key and zero otherwise, and
every record's value is the cast mean of its key's group. -/
theorem aggregate_algorithm (cfp : ℚ → ℚ → ℕ → String) (lvl : ℕ)
    (samples : List PixelSample) (c b : String) :
    ((aggregate cfp lvl samples).countP (fun r => decide (r.cellId = c ∧ r.band = b)) =
      if (c, b) ∈ samples.map (sample_key cfp lvl) then 1 else 0)
    ∧ ∀ r ∈ aggregate cfp lvl samples,
        r.value = cast_int16 (group_mean cfp lvl samples (r.cellId, r.band)) := by
  constructor
  · unfold aggregate
    rw [List.countP_map]
    have hc : List.countP
        ((fun r : HexCellRecord => decide (r.cellId = c ∧ r.band = b)) ∘
          (fun k : String × String =>
            (⟨k.1, k.2, cast_int16 (group_mean cfp lvl samples k)⟩ : HexCellRecord)))
        ((samples.map (sample_key cfp lvl)).dedup) =
        List.countP (fun k => decide (k = (c, b)))
        ((samples.map (sample_key cfp lvl)).dedup) := by
      apply List.countP_congr
      intro k _
      simp [Prod.ext_iff]
    rw [hc, countP_eq_ite_of_nodup (List.nodup_dedup _) (c, b)]
    simp [List.mem_dedup]
  · intro r hr
    unfold aggregate at hr
    obtain ⟨k, _, rfl⟩ := List.mem_map.mp hr
    simp

/-- Witness for C5: two samples of one cell and band produce exactly one
record for that (cell, band) key. -/
theorem aggregate_algorithm_witness :
    (aggregate demo_cfp 12 demo_samples).countP
      (fun r => decide (r.cellId = "8c9e688000001ff" ∧ r.band = "B02")) = 1 := by
  have h := (aggregate_algorithm demo_cfp 12 demo_samples "8c9e688000001ff" "B02").1
  rw [h]
  simp [demo_samples, demo_cfp, sample_key]

/-- C6: aggregation is order-independent — permuting the input sample
sequence yields a permutation (hence the same multiset) of the output
records. -/
theorem aggregate_perm_invariant (cfp : ℚ → ℚ → ℕ → String) (lvl : ℕ)
    {s1 s2 : List PixelSample} (hp : s1.Perm s2) :
    (aggregate cfp lvl s1).Perm (aggregate cfp lvl s2) := by
  have hkeys : ((s1.map (sample_key cfp lvl)).dedup).Perm
      ((s2.map (sample_key cfp lvl)).dedup) :=
    (hp.map (sample_key cfp lvl)).dedup
  have hmean : ∀ k, group_mean cfp lvl s1 k = group_mean cfp lvl s2 k := by
    intro k
    have hf := hp.filter (fun s => decide (sample_key cfp lvl s = k))
    simp only [group_mean]
    rw [(hf.map PixelSample.value).sum_eq, hf.length_eq]
  unfold aggregate
  have hfun : (fun k : String × String =>
      (⟨k.1, k.2, cast_int16 (group_mean cfp lvl s1 k)⟩ : HexCellRecord)) =
      (fun k => ⟨k.1, k.2, cast_int16 (group_mean cfp lvl s2 k)⟩) :=
    funext fun k => by rw [hmean k]
  rw [hfun]
  exact hkeys.map _

/-- Witness for C6: swapping two samples of different bands leaves the
record multiset unchanged. -/
theorem aggregate_perm_invariant_witness :
    (aggregate demo_cfp 12 [⟨-21, 157, "B02", 2469⟩, ⟨-21, 157, "B03", 2471⟩]).Perm
      (aggregate demo_cfp 12 [⟨-21, 157, "B03", 2471⟩, ⟨-21, 157, "B02", 2469⟩]) :=
  aggregate_perm_invariant demo_cfp 12 (List.Perm.swap _ _ _)

/-- C3 counterexample: a group whose mean is 40000 (outside int16's range)
aggregates to -25536 = 40000 - 2^16 — the mean reduced modulo 2^16 in
two's complement — rather than saturating or failing, so the claim that a
wrapped value is never produced fails at this input. -/
theorem mean_overflow_wraps_example :
    aggregate demo_cfp 12 [⟨-21, 157, "B02", 40000⟩] =
      [⟨"8c9e688000001ff", "B02", -25536⟩]
    ∧ (-25536 : ℤ) = 40000 - 2 ^ 16 := by
  constructor
  · rw [aggregate_singleton]
    have h40 : cast_int16 (((40000 : ℤ) : ℚ)) = int16_wrap 40000 := cast_int16_intCast 40000
    norm_num at h40 ⊢
    refine ⟨rfl, ?_⟩
    rw [h40]
    decide
  · decide

/-- C3 amended: the int16 cast of a group mean always silently wraps: the
produced value is congruent to the truncated mean modulo 2^16 and lies in
[-2^15, 2^15); out-of-range means neither saturate nor raise an error. -/
theorem cast_wraps_modulo (q : ℚ) :
    (2 ^ 16 : ℤ) ∣ (cast_int16 q - rat_trunc q)
    ∧ -(2 ^ 15) ≤ cast_int16 q ∧ cast_int16 q < 2 ^ 15 := by
  unfold cast_int16 int16_wrap
  refine ⟨⟨-((rat_trunc q + 2 ^ 15) / 2 ^ 16), by rw [Int.emod_def]; ring⟩, ?_, ?_⟩
  · have h := Int.emod_nonneg (rat_trunc q + 2 ^ 15) (b := 2 ^ 16) (by norm_num)
    linarith
  · have h := Int.emod_lt_of_pos (rat_trunc q + 2 ^ 15) (b := 2 ^ 16) (by norm_num)
    linarith

/-- C10: for means whose truncation lies inside int16's range, the cast is
exactly truncation toward zero — floor for nonnegative means, ceiling for
negative ones — with no round-half-to-even or other rounding. -/
theorem cast_truncates_toward_zero (q : ℚ)
    (hlo : -(2 ^ 15) ≤ rat_trunc q) (hhi : rat_trunc q < 2 ^ 15) :
    cast_int16 q = rat_trunc q
    ∧ rat_trunc q = if 0 ≤ q then ⌊q⌋ else ⌈q⌉ := by
  refine ⟨?_, rat_trunc_toward_zero q⟩
  unfold cast_int16 int16_wrap
  rw [Int.emod_eq_of_lt (by linarith) (by linarith)]
  ring

/-- Witness for C10: a mean of 2469.75 casts to 2469 and a mean of -0.5
casts to 0. -/
theorem cast_truncates_toward_zero_witness :
    cast_int16 ((9879 : ℚ) / 4) = 2469 ∧ cast_int16 (-(1 : ℚ) / 2) = 0 := by
  have ht1 : rat_trunc ((9879 : ℚ) / 4) = 2469 := by
    rw [rat_trunc_toward_zero]
    norm_num
  have ht2 : rat_trunc (-(1 : ℚ) / 2) = 0 := by
    rw [rat_trunc_toward_zero]
    norm_num
  constructor
  · have h := cast_truncates_toward_zero ((9879 : ℚ) / 4)
      (by rw [ht1]; norm_num) (by rw [ht1]; norm_num)
    rw [h.1, ht1]
  · have h := cast_truncates_toward_zero (-(1 : ℚ) / 2)
      (by rw [ht2]; norm_num) (by rw [ht2]; norm_num)
    rw [h.1, ht2]
